import Mathlib

/-!
# Verification of the "Words" language implementation

A shallow embedding of the Words interpreter, lexer, parser and Cortex-M0
compiler (repository DavidStrootman/Words, package `src/src/words`), with
theorems settling the frozen claims about it.

Modelling conventions:
* Python lists holding the runtime stack are modelled as `List Value` in the
  same orientation as the source: the *top* of the stack is the *last*
  element (`stack[-1]` becomes `List.getLast?`, `stack[0]` becomes
  `List.head?`).
* Python dicts are modelled as insertion-ordered association lists;
  `{**d, **{k: v}}` becomes `dictInsert`, which overwrites an existing key
  in place or appends a new one.
* Python exceptions become error values (`Err`, `PErr`, `CompErr`).  The
  source mutates one dictionary in `FunctionParserToken.execute`; everywhere
  else state is threaded functionally, and the embedding threads it
  functionally throughout (the spec's §5 value-semantics reading).
* `DebugData` is carried by lexer tokens as a line number and omitted from
  AST nodes: the spec states it is used only for diagnostics.  Errors that
  in Python format the offending token via `debug_str` instead carry the
  offending token itself (`CompErr.cannotCompile`).
* Unbounded recursion in the interpreter (`While`, function calls) and in
  the recursive-descent parser is made total with an explicit fuel
  parameter; exhausting fuel yields the distinguished result `Res.timeout`,
  never an error of the program under study.
* `uuid.uuid4()` label suffixes in the compiler are modelled by threading a
  natural-number label supply.
* `CopyParserToken` is referenced by `lexer_token.py` and `compile.py` but
  defined nowhere in the repository (a `NameError` at its construction
  site); the AST still carries a `copy` node so that the compiler's
  `isinstance` branch for it can be embedded, and parsing the `COPY`
  keyword is modelled as the `NameError` it would raise.
-/

/-- AST nodes (`ParserToken` subclasses of `token_types/parser_token.py`).
Children are owned lists, mirroring the source's `List[ParserToken]`
fields; `ifT`'s else branch is `Option` like the source's
`Optional[List[ParserToken]]`. -/
inductive ParserToken where
  /-- `NumberParserToken` (field `value`). -/
  | number (value : Int)
  /-- `BooleanParserToken` (field `value`, already converted from the
  `"True"`/`"False"` word). -/
  | boolean (value : Bool)
  /-- `MacroParserToken` (field `function_name`). -/
  | macroTok (functionName : String)
  /-- `WhileParserToken` (fields `predicate`, `statements`). -/
  | whileT (predicate : List ParserToken) (statements : List ParserToken)
  /-- `IfParserToken` (fields `if_body`, `else_body`). -/
  | ifT (ifBody : List ParserToken) (elseBody : Option (List ParserToken))
  /-- `VariableParserToken` (field `value`, the variable name). -/
  | variable (value : String)
  /-- `ValueParserToken` (field `value`, the parameter name). -/
  | valueT (value : String)
  /-- `IdentParserToken` (field `value`, the identifier name). -/
  | ident (value : String)
  /-- `ReturnParserToken` (field `count`). -/
  | returnT (count : Nat)
  /-- `FunctionParserToken` (fields `name`, `parameters`, `body`). -/
  | function (name : String) (parameters : List ParserToken) (body : List ParserToken)
  /-- `LambdaParserToken`. -/
  | lambda
  /-- `ArithmeticOperatorParserToken` (field `value`, `"+"` or `"-"`). -/
  | arith (value : String)
  /-- `BooleanOperatorParserToken` (field `value`). -/
  | boolOp (value : String)
  /-- `DictionaryOperatorParserToken` (fields `value`, `variable_name`). -/
  | dictOp (value : String) (variableName : String)
  /-- `CopyParserToken`: referenced by callers but not defined in
  `parser_token.py`. -/
  | copy

/-- Runtime stack values.  The interpreter pushes Python ints, bools and the
`VariableParserToken.VarUnassigned` sentinel class onto the stack. -/
inductive Value where
  | int (n : Int)
  | bool (b : Bool)
  /-- The `VarUnassigned` placeholder class object. -/
  | unassigned
deriving DecidableEq

/-- What a dictionary key can be bound to: a runtime value (including the
unassigned sentinel) or a stored `FunctionParserToken`. -/
inductive DictEntry where
  | val (v : Value)
  | func (name : String) (parameters : List ParserToken) (body : List ParserToken)

/-- The interpreter's value stack, in source orientation: top at the end. -/
abbrev Stack := List Value

/-- The name dictionary, as an insertion-ordered association list. -/
abbrev Dict := List (String × DictEntry)

/-- Python `key in dictionary`. -/
def dictContains (d : Dict) (k : String) : Bool :=
  d.any (fun p => p.1 = k)

/-- Python `dictionary[key]` lookup (first, i.e. unique, matching key). -/
def dictFind? (d : Dict) (k : String) : Option DictEntry :=
  (d.find? (fun p => p.1 = k)).map Prod.snd

/-- Python `{**d, **{k: v}}`: overwrite in place when the key exists,
append otherwise. -/
def dictInsert (d : Dict) (k : String) (v : DictEntry) : Dict :=
  if dictContains d k then d.map (fun p => if p.1 = k then (k, v) else p)
  else d ++ [(k, v)]

/-- Runtime errors: each constructor models one exception class of
`exceptions/parser_exceptions.py` or a built-in Python exception the
interpreter can raise. -/
inductive Err where
  | stackSize
  | invalidPredicate
  | undefinedIdentifier
  | identifierPreviouslyDefined
  /-- Python `NotImplementedError`. -/
  | notImplErr
  /-- Python `RuntimeError` (e.g. executing a `ValueParserToken`). -/
  | runtimeError
  /-- Python `TypeError` (e.g. arithmetic on the unassigned sentinel). -/
  | typeError
  /-- Python `IndexError` (e.g. `stack[-1]` on an empty stack). -/
  | indexError
deriving DecidableEq

/-- Result of a fuelled computation: success, a raised exception, or fuel
exhaustion (the source recurses unboundedly; `timeout` is the embedding's
marker for not having unfolded far enough, never a behaviour of the
program). -/
inductive Res (ε α : Type) where
  | ok (a : α)
  | err (e : ε)
  | timeout

/-- Python `int`/`bool` coercion used by arithmetic and comparisons
(`True` counts as `1`, `False` as `0`); the unassigned sentinel supports no
arithmetic. -/
def Value.toInt? : Value → Option Int
  | .int n => some n
  | .bool b => some (if b then 1 else 0)
  | .unassigned => none

/-- Python `==` on stack values: numeric cross-type equality (`True == 1`),
and the sentinel class equal only to itself. -/
def pyEq : Value → Value → Bool
  | .unassigned, .unassigned => true
  | .unassigned, _ => false
  | _, .unassigned => false
  | a, b => a.toInt? == b.toInt?

/-- `isinstance(x, bool)`. -/
def Value.isBool : Value → Bool
  | .bool _ => true
  | _ => false

/-- The `.value` attribute of a parser token when it is a string (dict keys
are strings for every token the parser can place in a parameter list);
`none` models the cases where Python would produce a non-string key or an
`AttributeError`. -/
def paramName : ParserToken → Option String
  | .valueT v => some v
  | .variable v => some v
  | .ident v => some v
  | .arith v => some v
  | .boolOp v => some v
  | .dictOp v _ => some v
  | _ => none

/-- `FunctionParserToken.setup_parameters`'s inner `rec_setup_parameters`.
`stack0Len` and `nParams` are the *closure-captured* `len(stack)` and
`len(self.parameters)` of the enclosing call, which the size guard reads on
every iteration. -/
def rec_setup_parameters (stack0Len nParams : Nat) :
    Stack → Dict → List ParserToken → Except Err (Stack × Dict)
  | stack_, dictionary_, [] => .ok (stack_, dictionary_)
  | stack_, dictionary_, p :: parameters =>
    if stack0Len < nParams then .error .stackSize
    else
      match paramName p with
      | none => .error .typeError
      | some key =>
        match stack_.getLast? with
        | none => .error .indexError
        | some top =>
          rec_setup_parameters stack0Len nParams stack_.dropLast
            (dictInsert dictionary_ key (.val top)) parameters

/-- `FunctionParserToken.setup_parameters self stack dictionary` for a
function whose parameter list is `parameters`. -/
def setup_parameters (parameters : List ParserToken) (stack : Stack) (dictionary : Dict) :
    Except Err (Stack × Dict) :=
  rec_setup_parameters stack.length parameters.length stack dictionary parameters

mutual

/-- `ParserToken.execute self stack dictionary`, one clause per subclass of
`parser_token.py`, with fuel for the source's unbounded recursion. -/
def execute : Nat → ParserToken → Stack → Dict → Res Err (Stack × Dict)
  | 0, _, _, _ => .timeout
  | _fuel + 1, .number value, stack, dictionary => .ok (stack ++ [.int value], dictionary)
  | _fuel + 1, .boolean value, stack, dictionary => .ok (stack ++ [.bool value], dictionary)
  | _fuel + 1, .macroTok functionName, stack, dictionary =>
    if functionName = "__PRINT__" then
      if stack = [] then .err .stackSize
      else .ok (stack, dictionary)  -- `print(stack[-1])` is a side effect only
    else .err .typeError  -- the method returns `None`, unpacked by the caller
  | fuel + 1, .whileT predicate statements, stack, dictionary =>
    match exhaustive_interpret_tokens fuel predicate stack dictionary with
    | .ok (pstack, _pdict) =>
      -- `exhaustive_interpret_tokens(...)[0][0]`: element 0 of the result stack
      match pstack.head? with
      | none => .err .indexError
      | some outcome =>
        match outcome with
        | .bool b =>
          if b then
            match exhaustive_interpret_tokens fuel statements stack dictionary with
            | .ok (stack2, dict2) => execute fuel (.whileT predicate statements) stack2 dict2
            | .err e => .err e
            | .timeout => .timeout
          else .ok (stack, dictionary)
        | _ => .err .invalidPredicate
    | .err e => .err e
    | .timeout => .timeout
  | fuel + 1, .ifT ifBody elseBody, stack, dictionary =>
    match stack.getLast? with
    | none => .err .indexError  -- `stack[-1]` on an empty stack
    | some predicate =>
      match predicate with
      | .bool b =>
        if b then exhaustive_interpret_tokens fuel ifBody stack.dropLast dictionary
        else
          match elseBody with
          | some elseB =>
            -- `if self.else_body:` — an empty list is falsy
            if elseB.isEmpty then .ok (stack.dropLast, dictionary)
            else exhaustive_interpret_tokens fuel elseB stack.dropLast dictionary
          | none => .ok (stack.dropLast, dictionary)
      | _ => .err .invalidPredicate
  | _fuel + 1, .variable value, stack, dictionary =>
    if dictContains dictionary value then .err .identifierPreviouslyDefined
    else .ok (stack, dictInsert dictionary value (.val .unassigned))
  | _fuel + 1, .valueT _, _, _ => .err .runtimeError
  | fuel + 1, .ident value, stack, dictionary =>
    match dictFind? dictionary value with
    | none => .err .undefinedIdentifier
    | some (.func name parameters body) => visit fuel name parameters body stack dictionary
    | some (.val v) => .ok (stack ++ [v], dictionary)
  | _fuel + 1, .returnT count, stack, dictionary =>
    if stack.length < count then .err .stackSize
    else if count = 0 then .ok ([], dictionary)
    else .ok (stack.drop (stack.length - count), dictionary)  -- `stack[-count:]`
  | _fuel + 1, .function name parameters body, stack, dictionary =>
    if dictContains dictionary name then .err .identifierPreviouslyDefined
    else .ok (stack, dictInsert dictionary name (.func name parameters body))
  | _fuel + 1, .lambda, _, _ => .err .notImplErr
  | _fuel + 1, .arith value, stack, dictionary =>
    if stack.length < 2 then .err .stackSize
    else
      match stack.getLast?, stack.dropLast.getLast? with
      | some topmost, some second =>
        match second.toInt?, topmost.toInt? with
        | some a, some b =>
          if value = "+" then .ok (stack.dropLast.dropLast ++ [.int (a + b)], dictionary)
          else if value = "-" then .ok (stack.dropLast.dropLast ++ [.int (a - b)], dictionary)
          else .err .notImplErr
        | _, _ =>
          if value = "+" ∨ value = "-" then .err .typeError else .err .notImplErr
      | _, _ => .err .indexError  -- unreachable under the length guard
  | _fuel + 1, .boolOp value, stack, dictionary =>
    if stack.length < 2 then .err .stackSize
    else
      match stack.getLast?, stack.dropLast.getLast? with
      | some topmost, some second =>
        if value = "==" then
          .ok (stack.dropLast.dropLast ++ [.bool (pyEq second topmost)], dictionary)
        else if value = ">" ∨ value = "<" ∨ value = ">=" ∨ value = "<=" then
          match second.toInt?, topmost.toInt? with
          | some a, some b =>
            let r : Bool :=
              if value = ">" then b < a
              else if value = "<" then a < b
              else if value = ">=" then b ≤ a
              else a ≤ b
            .ok (stack.dropLast.dropLast ++ [.bool r], dictionary)
          | _, _ => .err .typeError
        else .err .notImplErr
      | _, _ => .err .indexError  -- unreachable under the length guard
  | _fuel + 1, .dictOp value variableName, stack, dictionary =>
    if value = "ASSIGN" then
      if stack.length < 1 then .err .stackSize
      else
        match stack.getLast? with
        | some topmost => .ok (stack.dropLast, dictInsert dictionary variableName (.val topmost))
        | none => .err .indexError  -- unreachable under the length guard
    else .err .notImplErr
  | _fuel + 1, .copy, _, _ => .err .runtimeError  -- the class does not exist

/-- `interpret_util.exhaustive_interpret_tokens`. -/
def exhaustive_interpret_tokens : Nat → List ParserToken → Stack → Dict → Res Err (Stack × Dict)
  | _, [], stack_, dictionary_ => .ok (stack_, dictionary_)
  | 0, _ :: _, _, _ => .timeout
  | fuel + 1, t :: ts, stack_, dictionary_ =>
    match execute fuel t stack_ dictionary_ with
    | .ok (stack2, dict2) => exhaustive_interpret_tokens fuel ts stack2 dict2
    | .err e => .err e
    | .timeout => .timeout

/-- `FunctionParserToken.visit self stack dictionary`: bind parameters in a
copy of the call-site dictionary, run the body, append the body's stack to
the stripped stack, and return the *caller's* dictionary. -/
def visit : Nat → String → List ParserToken → List ParserToken → Stack → Dict →
    Res Err (Stack × Dict)
  | 0, _, _, _, _, _ => .timeout
  | fuel + 1, _name, parameters, body, stack, dictionary =>
    match setup_parameters parameters stack dictionary with
    | .error e => .err e
    | .ok (strippedStack, parameterDict) =>
      match exhaustive_interpret_tokens fuel body strippedStack parameterDict with
      | .ok (bodyStack, _bodyDict) => .ok (strippedStack ++ bodyStack, dictionary)
      | .err e => .err e
      | .timeout => .timeout

end

/-- `interpret_util.execute_program`: thread the program through an empty
dictionary and surface the final top of stack, if any. -/
def execute_program (fuel : Nat) (program : List ParserToken) (init : Stack) :
    Res Err (Option Value) :=
  match exhaustive_interpret_tokens fuel program init [] with
  | .ok (stack, _) => .ok stack.getLast?
  | .err e => .err e
  | .timeout => .timeout

/-! ## Lexer (`lexer/lex.py`, `token_types/lexer_token.py`) -/

/-- `lex_util.Word`: one whitespace-delimited word plus its line number
(its `DebugData`). -/
structure Word where
  content : String
  line : Nat
deriving DecidableEq

/-- Lexer tokens, one constructor per `LexerToken` subclass.  Each carries
the `.value` that Python stores (for `LiteralLexerToken` both the type enum
member and the raw word `content`) and the debug line. -/
inductive LexerToken where
  | delim (value : String) (line : Nat)
  | ident (value : String) (line : Nat)
  | keyword (value : String) (line : Nat)
  | literal (type_ : String) (content : String) (line : Nat)
  | macroTok (value : String) (line : Nat)
  | op (value : String) (line : Nat)
deriving DecidableEq

/-- `DelimLexerToken.Types.values()`. -/
def delimValues : List String := ["(", ")"]

/-- `KeywordLexerToken.Types.values()`. -/
def keywordValues : List String :=
  ["BEGIN", "WHILE", "REPEAT", "IF", "ELSE", "THEN", "VARIABLE", "COPY",
   "VALUE", "RETURN", "|", "λ"]

/-- `LiteralLexerToken.Types.values()`. -/
def literalValues : List String := ["NUMBER", "#", "True", "False"]

/-- `MacroLexerToken.Types.values()`. -/
def macroValues : List String := ["__PRINT__"]

/-- `OpLexerToken.Types.values()`. -/
def opValues : List String := ["-", "+", "==", ">", "<", ">=", "<=", "ASSIGN"]

/-- Python `str.isdigit` restricted to ASCII: nonempty and all digits
(stated over the string's character list). -/
def pyIsDigit (s : String) : Bool :=
  ¬ s.data.isEmpty && s.data.all Char.isDigit

/-- `Lexer.lex_word`: classify one word, first match wins in the source's
exact order. -/
def lex_word (word : Word) : LexerToken :=
  if word.content ∈ delimValues then .delim word.content word.line
  else if word.content ∈ keywordValues then .keyword word.content word.line
  else if word.content ∈ literalValues then .literal word.content word.content word.line
  else if word.content ∈ macroValues then .macroTok word.content word.line
  else if word.content ∈ opValues then .op word.content word.line
  else if pyIsDigit word.content then .literal "NUMBER" word.content word.line
  else .ident word.content word.line

/-- `token.value == LiteralLexerToken.Types.COMMENT`: only a
`LiteralLexerToken` can carry that enum member; an identifier's plain
string never equals it. -/
def tokenIsComment : LexerToken → Bool
  | .literal type_ _ _ => type_ = "#"
  | _ => false

/-- `Lexer.lex_line`: lex words until the line ends, and *return* (ending
the whole line's production) as soon as a comment token is produced. -/
def lex_line : List Word → List LexerToken
  | [] => []
  | word :: rest =>
    let token := lex_word word
    if tokenIsComment token then []
    else token :: lex_line rest

/-- `Lexer.lex_file_contents` / `Lexer._exhaustive_lex`: lex every line in
order and concatenate. -/
def lex_file_contents (lines : List (List Word)) : List LexerToken :=
  (lines.map lex_line).flatten

/-! ## Parser (`parser/parse.py`, `parser/parse_util.py`,
`LexerToken.parse` methods of `token_types/lexer_token.py`) -/

/-- Parse-time errors, one per exception of `exceptions/lexer_exceptions.py`
plus the built-in Python exceptions the parse methods can raise.
`StopIteration` is the iterator-exhaustion signal that some branches catch
and convert to `MissingTokenError`, and others let propagate. -/
inductive PErr where
  | stopIteration
  | unexpectedToken
  | unexpectedTokenType
  | missingToken
  | invalidToken
  | incorrectReturnCount
  | noReturnToken
  /-- Python `ValueError` (`int(...)` failure or numeric-literal overflow). -/
  | valueError
  /-- Python `RuntimeError` (non-`Value` function parameter). -/
  | runtimeError
  /-- Python `NotImplementedError` (`LAMBDA`). -/
  | notImplErr
  /-- Python `NameError` (`CopyParserToken` is undefined). -/
  | nameError
deriving DecidableEq

/-- A limit type passed to `eat_until`: enum members of distinct Python
enum classes compare unequal even with equal string values, so the limit
carries which token class it belongs to. -/
inductive LimitTy where
  | kw (value : String)
  | delim (value : String)
deriving DecidableEq

/-- `token.value in limit_types`: only a token of the same class with the
same enum value matches. -/
def tokenMatches (t : LexerToken) : LimitTy → Bool
  | .kw v => match t with | .keyword kv _ => kv = v | _ => false
  | .delim v => match t with | .delim dv _ => dv = v | _ => false

/-- Python `int(s)` on the strings that reach it here: a digit string
converts, anything else raises `ValueError` (`none`). -/
def pyInt? (s : String) : Option Nat :=
  if pyIsDigit s then some (s.data.foldl (fun acc c => 10 * acc + (c.toNat - 48)) 0)
  else none

/-- `ReturnParserToken` test used by the `FUNCTION` body check. -/
def isReturnToken : ParserToken → Bool
  | .returnT _ => true
  | _ => false

/-- `ValueParserToken` test used by the `FUNCTION` parameter check. -/
def isValueToken : ParserToken → Bool
  | .valueT _ => true
  | _ => false

mutual

/-- `LexerToken.parse self tokens`, one clause per subclass; consumes
further tokens from the stream and returns the node plus the remaining
stream.  Keyword branches follow `KeywordLexerToken.parse` in the source's
order. -/
def parse_token : Nat → LexerToken → List LexerToken → Res PErr (ParserToken × List LexerToken)
  | 0, _, _ => .timeout
  | _fuel + 1, .delim _ _, _ => .err .invalidToken
  | _fuel + 1, .ident value _, tokens => .ok (.ident value, tokens)
  | _fuel + 1, .literal type_ content _, tokens =>
    -- `LiteralLexerToken.parse`
    if type_ = "#" then .err .invalidToken
    else if type_ = "NUMBER" then
      match pyInt? content with
      | none => .err .valueError
      | some number =>
        if number > 0xFFFFFFFF then .err .valueError
        else .ok (.number number, tokens)
    else if type_ = "True" ∨ type_ = "False" then .ok (.boolean (content = "True"), tokens)
    else .err .runtimeError  -- unreachable: the method would return `None`
  | _fuel + 1, .macroTok value _, tokens => .ok (.macroTok value, tokens)
  | _fuel + 1, .op value _, tokens =>
    -- `OpLexerToken.parse`
    if value = "-" ∨ value = "+" then .ok (.arith value, tokens)
    else if value = "==" ∨ value = ">" ∨ value = "<" ∨ value = ">=" ∨ value = "<=" then
      .ok (.boolOp value, tokens)
    else if value = "ASSIGN" then
      match tokens with
      | [] => .err .missingToken
      | targeted :: rest =>
        match targeted with
        | .ident name _ => .ok (.dictOp "ASSIGN" name, rest)
        | _ => .err .unexpectedToken  -- `assert_kind_of(..., IdentLexerToken)`
    else .err .runtimeError  -- unreachable: the method would return `None`
  | fuel + 1, .keyword value _, tokens =>
    -- `KeywordLexerToken.parse`
    if value = "BEGIN" then
      match eat_until fuel tokens [.kw "WHILE"] with
      | .ok (predicate, _whileTok, rest) =>
        match eat_until_discarding fuel rest [.kw "REPEAT"] with
        | .ok (body, rest2) =>
          if body.isEmpty then .err .missingToken
          else .ok (.whileT predicate body, rest2)
        | .err e => .err e
        | .timeout => .timeout
      | .err e => .err e
      | .timeout => .timeout
    else if value = "WHILE" then .err .invalidToken
    else if value = "REPEAT" then .err .invalidToken
    else if value = "IF" then
      match eat_until fuel tokens [.kw "ELSE", .kw "THEN"] with
      | .err .stopIteration => .err .missingToken  -- `except StopIteration`
      | .err e => .err e
      | .timeout => .timeout
      | .ok (ifBody, terminator, rest) =>
        -- `if_body[-1].value == self.Types.ELSE`
        if tokenMatches terminator (.kw "ELSE") then
          match eat_until_discarding fuel rest [.kw "THEN"] with
          | .err .stopIteration => .err .missingToken
          | .err e => .err e
          | .timeout => .timeout
          | .ok (elseBody, rest2) => .ok (.ifT ifBody (some elseBody), rest2)
        else .ok (.ifT ifBody none, rest)
    else if value = "ELSE" then .err .invalidToken
    else if value = "THEN" then .err .invalidToken
    else if value = "VARIABLE" then
      match tokens with
      | [] => .err .missingToken  -- caught `StopIteration`
      | token :: rest =>
        match token with
        | .ident name _ => .ok (.variable name, rest)
        | _ => .err .unexpectedToken  -- `assert_kind_of(..., IdentLexerToken)`
    else if value = "VALUE" then
      match tokens with
      | [] => .err .missingToken
      | token :: rest =>
        match token with
        | .ident name _ => .ok (.valueT name, rest)
        | _ => .err .unexpectedToken
    else if value = "RETURN" then
      match tokens with
      | [] => .err .missingToken
      | token :: rest =>
        -- `try_get_return_value`: `assert_type(token, NUMBER)` then range check
        match token with
        | .literal type_ content _ =>
          if type_ = "NUMBER" then
            match pyInt? content with
            | none => .err .valueError
            | some n =>
              if n < 4 then .ok (.returnT n, rest) else .err .incorrectReturnCount
          else .err .unexpectedTokenType
        | _ => .err .unexpectedTokenType
    else if value = "|" then
      match tokens with
      | [] => .err .stopIteration  -- bare `next(tokens)`, not caught here
      | token :: rest =>
        match token with
        | .ident functionName _ =>
          match rest with
          | [] => .err .stopIteration  -- bare `next(tokens)` for `paren_open`
          | parenOpen :: rest2 =>
            -- `assert_type(paren_open, PAREN_OPEN)`
            if tokenMatches parenOpen (.delim "(") then
              match eat_until_discarding fuel rest2 [.delim ")"] with
              | .err .stopIteration => .err .missingToken
              | .err e => .err e
              | .timeout => .timeout
              | .ok (parameters, rest3) =>
                match eat_until_discarding fuel rest3 [.kw "|"] with
                | .err .stopIteration => .err .missingToken
                | .err e => .err e
                | .timeout => .timeout
                | .ok (body, rest4) =>
                  if ¬ body.any isReturnToken then .err .noReturnToken
                  else if ¬ parameters.all isValueToken then .err .runtimeError
                  else .ok (.function functionName parameters body, rest4)
            else .err .unexpectedTokenType
        | _ => .err .unexpectedToken
    else if value = "COPY" then .err .nameError  -- `CopyParserToken` is undefined
    else if value = "λ" then .err .notImplErr
    else .err .notImplErr  -- unreachable fallback `raise NotImplementedError`

/-- `parse_util.eat_until`: parse tokens until one matches a limit type;
the source returns the parsed nodes with the unparsed terminator appended,
modelled as the triple (parsed nodes, terminator, remaining stream). -/
def eat_until : Nat → List LexerToken → List LimitTy →
    Res PErr (List ParserToken × LexerToken × List LexerToken)
  | 0, _, _ => .timeout
  | _fuel + 1, [], _ => .err .stopIteration  -- `next(tokens)` raises
  | fuel + 1, token :: rest, limitTypes =>
    if limitTypes.any (tokenMatches token) then .ok ([], token, rest)
    else
      match parse_token fuel token rest with
      | .ok (parsed, rest2) =>
        match eat_until fuel rest2 limitTypes with
        | .ok (parsedRest, terminator, rest3) => .ok (parsed :: parsedRest, terminator, rest3)
        | .err e => .err e
        | .timeout => .timeout
      | .err e => .err e
      | .timeout => .timeout

/-- `parse_util.eat_until_discarding`: like `eat_until` but the terminator
is dropped. -/
def eat_until_discarding : Nat → List LexerToken → List LimitTy →
    Res PErr (List ParserToken × List LexerToken)
  | 0, _, _ => .timeout
  | _fuel + 1, [], _ => .err .stopIteration
  | fuel + 1, token :: rest, limitTypes =>
    if limitTypes.any (tokenMatches token) then .ok ([], rest)
    else
      match parse_token fuel token rest with
      | .ok (parsed, rest2) =>
        match eat_until_discarding fuel rest2 limitTypes with
        | .ok (parsedRest, rest3) => .ok (parsed :: parsedRest, rest3)
        | .err e => .err e
        | .timeout => .timeout
      | .err e => .err e
      | .timeout => .timeout

end

/-! ## Cortex-M0 compiler (`compiler/compile.py`, `compiler/compile_util.py`)

The assembly text is built exactly as the source's f-strings build it,
except that the `uuid.uuid4()[:8]` label suffix is replaced by a threaded
natural-number label supply, and the `DebugData` line number interpolated
into labels and comments is omitted along with the rest of `DebugData`. -/

/-- Compiler errors.  `cannotCompile` models the catch-all
`RuntimeError(f"Cannot compile token {token.debug_str()}")` and carries the
offending node in place of its `debug_str`. -/
inductive CompErr where
  | cannotCompile (token : ParserToken)
  /-- Python `TypeError`: iterating over `None` (`else_body` of an
  else-less `If`). -/
  | typeError
  /-- Python `KeyError`: operator missing from a compile map. -/
  | keyError

/-- `M0Util.reg`. -/
def m0reg (r : Nat) : String := "r" ++ toString r

/-- `M0Util.asm_instruction_load`. -/
def asm_instruction_load (destReg : Nat) (immed32 : Int) : String :=
  "ldr " ++ m0reg destReg ++ ", =" ++ toString immed32 ++ "\n"

/-- `M0Util.asm_instruction_move`. -/
def asm_instruction_move (destReg : Nat) (immed8 : Int) : String :=
  "mov " ++ m0reg destReg ++ ", #" ++ toString immed8 ++ "\n"

/-- `M0Util.asm_instruction_move_reg`. -/
def asm_instruction_move_reg (destReg fromReg : Nat) : String :=
  "mov " ++ m0reg destReg ++ ", " ++ m0reg fromReg ++ "\n"

/-- `M0Util.asm_instruction_move_into_pc`. -/
def asm_instruction_move_into_pc (reg : Nat) : String :=
  "mov pc, " ++ m0reg reg ++ "\n"

/-- `M0Util.asm_instruction_move_lr_into`. -/
def asm_instruction_move_lr_into (reg : Nat) : String :=
  "mov " ++ m0reg reg ++ ", lr\n"

/-- `M0Util.asm_instruction_cmp_immed`. -/
def asm_instruction_cmp_immed (cmpReg : Nat) (immed8 : Int) : String :=
  "cmp " ++ m0reg cmpReg ++ ", #" ++ toString immed8 ++ "\n"

/-- `M0Util.asm_instruction_cmp_reg`. -/
def asm_instruction_cmp_reg (cmpReg cmpReg2 : Nat) : String :=
  "cmp " ++ m0reg cmpReg ++ ", " ++ m0reg cmpReg2 ++ "\n"

/-- `M0Util.asm_instruction_list` (`f"{inst} {{ {regs_str} }}\n"`). -/
def asm_instruction_list (inst : String) (regs : List Nat) : String :=
  inst ++ " \x7b " ++ String.intercalate ", " (regs.map m0reg) ++ " \x7d\n"

/-- `M0Util.asm_push_lr`. -/
def asm_push_lr : String := "push \x7b lr \x7d\n"

/-- `M0Util.asm_push_value_stack`. -/
def asm_push_value_stack (value : Int) : String :=
  (if value > 0x11111111 then asm_instruction_load 0 value else "")
    ++ asm_instruction_move 0 value
    ++ asm_instruction_list "push" [0]

/-- `M0Util.asm_branch`. -/
def asm_branch (target : String) : String := "b " ++ target ++ "\n"

/-- `M0Util.asm_branch_link`. -/
def asm_branch_link (target : String) : String := "bl " ++ target ++ "\n"

/-- `M0Util.asm_comment`. -/
def asm_comment (comment : String) : String := "@ " ++ comment ++ "\n"

/-- `M0Util.boolean_compile_map`. -/
def boolean_compile_map (op : String) : Option String :=
  if op = "==" then some "beq"
  else if op = "!=" then some "bne"
  else if op = ">=" then some "bge"
  else if op = "<=" then some "bls"
  else if op = ">" then some "bgt"
  else if op = "<" then some "blt"
  else none

/-- `M0Util.arithmetic_compile_map`. -/
def arithmetic_compile_map (op : String) : Option String :=
  if op = "+" then some "add"
  else if op = "-" then some "sub"
  else none

/-- The registers-in-use mapping `param_regs`: the source builds
`{i + 3: prm.value for i, prm in enumerate(function_token.parameters)}`. -/
abbrev UsedRegs := List (Nat × String)

/-- `M0Util.reg_from_val`: index of the name in the dict's value list,
plus 3. -/
def reg_from_val (identVal : String) (usedRegs : UsedRegs) : Nat :=
  (usedRegs.map Prod.snd).indexOf identVal + 3

/-- `M0Compiler._compile_ident_token`. -/
def compile_ident_token (value : String) (usedRegs : UsedRegs) : String :=
  if ¬ (usedRegs.map Prod.snd).contains value then
    -- it must be a function (or some undefined identifier)
    asm_branch_link value
  else
    asm_instruction_list "push" [reg_from_val value usedRegs]

/-- `M0Compiler._compile_macro_token`. -/
def compile_macro_token (functionName : String) : String :=
  if functionName = "__PRINT__" then
    asm_instruction_list "pop" [0] ++ asm_branch_link "print_num"
      ++ asm_instruction_list "push" [0]
  else ""

/-- `M0Compiler._compile_boolean_token`. -/
def compile_boolean_token (value : Bool) : String :=
  if value then asm_push_value_stack 1 else asm_push_value_stack 0

/-- `M0Compiler._compile_copy_token`. -/
def compile_copy_token : String :=
  asm_instruction_list "pop" [0] ++ asm_instruction_list "push" [0]
    ++ asm_instruction_list "push" [0]

/-- `M0Compiler._compile_boolean_op_token`.  The two label names draw two
fresh suffixes from the label supply (two `uuid.uuid4()` calls in the
source); the `KeyError` for an operator missing from the map fires before
any output is produced, as in the source's sequential string building. -/
def compile_boolean_op_token (value : String) (labelSupply : Nat) :
    Except CompErr (String × Nat) :=
  match boolean_compile_map value with
  | none => .error .keyError
  | some branchInst =>
    let skipFalseIfTrueBranch := "true_line_" ++ toString labelSupply
    let falseBranch := "false_line_" ++ toString (labelSupply + 1)
    .ok (asm_instruction_list "pop" [1, 2]
      ++ asm_instruction_move 0 1
      ++ asm_instruction_cmp_reg 2 1
      ++ branchInst ++ " " ++ skipFalseIfTrueBranch ++ "\n"
      ++ falseBranch ++ ":\n"
      ++ asm_instruction_move 0 0
      ++ skipFalseIfTrueBranch ++ ":\n"
      ++ asm_instruction_list "push" [0], labelSupply + 2)

/-- `M0Compiler._compile_arithmetic_op_token`. -/
def compile_arithmetic_op_token (value : String) : Except CompErr String :=
  match arithmetic_compile_map value with
  | none => .error .keyError
  | some inst =>
    .ok (asm_instruction_list "pop" [0, 1]
      ++ inst ++ " " ++ m0reg 0 ++ ", " ++ m0reg 1 ++ ", " ++ m0reg 0 ++ "\n"
      ++ asm_instruction_list "push" [0])

/-- The branch/label assembly of `M0Compiler._compile_if_token` around the
already-compiled `if_body` and `else_body` output (the recursive calls
themselves live in `compile_token` below). -/
def compile_if_parts (ifOut elseOut : String) (labelSupply : Nat) : String :=
  let elseBranch := "else_body_of_if_on_line_" ++ toString labelSupply
  let endOfIf := "end_if_on_line_" ++ toString labelSupply
  asm_instruction_list "pop" [0]
    ++ asm_instruction_cmp_immed 0 0
    ++ "beq " ++ elseBranch ++ "\n"
    ++ "if_body_of_if_on_line_" ++ toString labelSupply ++ ":\n"
    ++ ifOut
    ++ asm_branch endOfIf
    ++ elseBranch ++ ":\n"
    ++ elseOut
    ++ endOfIf ++ ":\n"

/-- The label assembly of `M0Compiler._compile_while_token` around the
already-compiled `predicate` and `statements` output. -/
def compile_while_parts (predOut bodyOut : String) (labelSupply : Nat) : String :=
  let whilePredicate := "while_predicate_on_line_" ++ toString labelSupply
  let whileBodyStart := "while_body_on_line_" ++ toString labelSupply
  let endOfWhile := "end_while_on_line_" ++ toString labelSupply
  whilePredicate ++ ":\n"
    ++ predOut
    ++ asm_instruction_list "pop" [0]
    ++ asm_instruction_cmp_immed 0 0
    ++ "beq " ++ endOfWhile ++ "\n"
    ++ whileBodyStart ++ ":\n"
    ++ bodyOut
    ++ asm_branch whilePredicate
    ++ endOfWhile ++ ":\n"

/-- The `param_regs` dict of `M0Compiler._compile_function_token`:
`{i + 3: prm.value for i, prm in enumerate(function_token.parameters)}`. -/
def function_param_regs (paramNames : List String) : UsedRegs :=
  (List.range paramNames.length).zip paramNames |>.map (fun p => (p.1 + 3, p.2))

/-- The prologue emitted by `M0Compiler._compile_function_token` before the
function body. -/
def compile_function_header (name : String) (hasParameters : Bool) (keys : List Nat) : String :=
  "\n" ++ asm_comment ("Start of function " ++ name)
    ++ "b " ++ name ++ "_end \n"
    ++ name ++ ":\n"
    ++ (if hasParameters then
          asm_instruction_move_lr_into 5
            ++ String.join (keys.map (fun reg => asm_instruction_move_reg (reg - 2) reg))
            ++ asm_instruction_list "pop" keys
            ++ asm_instruction_list "push" [5]
            ++ asm_instruction_list "push" (keys.map (fun reg => reg - 2))
            ++ "\n"
        else asm_push_lr ++ "\n")
    ++ asm_comment "Function body:"

/-- The epilogue emitted by `M0Compiler._compile_function_token` after the
function body. -/
def compile_function_footer (name : String) (keys : List Nat) : String :=
  "\n"
    ++ asm_comment "Function end cleanup:"
    ++ asm_comment "return value, assuming function solves:"
    ++ asm_instruction_list "pop" [6]
    ++ asm_instruction_list "pop" keys
    ++ asm_comment "link register:"
    ++ asm_instruction_list "pop" [7]
    ++ asm_instruction_list "push" [6]
    ++ asm_instruction_move_into_pc 7
    ++ name ++ "_end:\n"
    ++ asm_comment ("End of function " ++ name ++ "\n")

mutual

/-- `M0Compiler._compile_token`: the `isinstance` dispatch, in source
order; any node reaching the end of the dispatch raises the catch-all
`RuntimeError("Cannot compile token ...")`, modelled by
`CompErr.cannotCompile` carrying the offending node.

The source delegates `Function`, `If` and `While` to
`_compile_function_token`, `_compile_if_token` and `_compile_while_token`;
their recursive child compilations are inlined here and their string
assembly lives in the `compile_*_parts`/`header`/`footer` helpers above.
`prm.value` of a function parameter is read through `paramName`; a
parameter without a string `.value` cannot arise from parsed programs and
is modelled as a `TypeError`.

For an `If`, the source compiles `if_body` and then iterates
`if_token.else_body` unconditionally: when `else_body` is `None` that
iteration raises `TypeError`. -/
def compile_token : ParserToken → UsedRegs → Nat → Except CompErr (String × Nat)
  | .function name parameters body, _, labelSupply =>
    (match parameters.mapM paramName with
     | none => .error .typeError
     | some paramNames =>
       (compile_tokens body (function_param_regs paramNames) labelSupply).bind fun pr =>
         .ok (compile_function_header name (!parameters.isEmpty)
             ((function_param_regs paramNames).map Prod.fst)
           ++ pr.1
           ++ compile_function_footer name ((function_param_regs paramNames).map Prod.fst),
           pr.2))
  | .number value, _, labelSupply => .ok (asm_push_value_stack value, labelSupply)
  | .ident value, usedRegs, labelSupply => .ok (compile_ident_token value usedRegs, labelSupply)
  | .macroTok functionName, _, labelSupply => .ok (compile_macro_token functionName, labelSupply)
  | .boolOp value, _, labelSupply => compile_boolean_op_token value labelSupply
  | .ifT ifBody elseBody, usedRegs, labelSupply =>
    (compile_tokens ifBody usedRegs (labelSupply + 1)).bind fun pr =>
      match elseBody with
      | none => .error .typeError  -- `for token in None`
      | some elseB =>
        (compile_tokens elseB usedRegs pr.2).bind fun pr2 =>
          .ok (compile_if_parts pr.1 pr2.1 labelSupply, pr2.2)
  | .returnT _, _, labelSupply => .ok ("", labelSupply)
  | .arith value, _, labelSupply =>
    (compile_arithmetic_op_token value).bind fun out => .ok (out, labelSupply)
  | .boolean value, _, labelSupply => .ok (compile_boolean_token value, labelSupply)
  | .whileT predicate statements, usedRegs, labelSupply =>
    (compile_tokens predicate usedRegs (labelSupply + 1)).bind fun pr =>
      (compile_tokens statements usedRegs pr.2).bind fun pr2 =>
        .ok (compile_while_parts pr.1 pr2.1 labelSupply, pr2.2)
  | .copy, _, labelSupply => .ok (compile_copy_token, labelSupply)
  | token, _, _ => .error (.cannotCompile token)
termination_by token _ _ => sizeOf token
decreasing_by
  all_goals simp_wf
  all_goals omega

/-- `"".join(M0Compiler._compile_token(token, used_regs) for token in ...)`:
compile a node list left to right, concatenating the output and threading
the label supply; the first raised error aborts the whole iteration. -/
def compile_tokens : List ParserToken → UsedRegs → Nat → Except CompErr (String × Nat)
  | [], _, labelSupply => .ok ("", labelSupply)
  | token :: rest, usedRegs, labelSupply =>
    (compile_token token usedRegs labelSupply).bind fun pr =>
      (compile_tokens rest usedRegs pr.2).bind fun pr2 =>
        .ok (pr.1 ++ pr2.1, pr2.2)
termination_by tokens _ _ => sizeOf tokens
decreasing_by
  all_goals simp_wf
  all_goals omega

end

/-! ## Helper lemmas -/

/-- The in-place update branch of `dictInsert` rewrites the binding of `k`
when some binding for `k` exists. -/
theorem find?_update_self (d : Dict) (k : String) (v : DictEntry)
    (hc : dictContains d k = true) :
    dictFind? (d.map (fun p => if p.1 = k then (k, v) else p)) k = some v := by
  induction d with
  | nil => simp [dictContains] at hc
  | cons hd rest ih =>
    by_cases hk : hd.1 = k
    · simp [dictFind?, hk]
    · have hc2 : dictContains rest k = true := by
        simpa [dictContains, hk] using hc
      simpa [dictFind?, hk] using ih hc2

/-- The in-place update branch of `dictInsert` leaves other keys alone. -/
theorem find?_update_ne (d : Dict) (k : String) (v : DictEntry) (k2 : String)
    (hne : k2 ≠ k) :
    dictFind? (d.map (fun p => if p.1 = k then (k, v) else p)) k2 = dictFind? d k2 := by
  induction d with
  | nil => simp [dictFind?]
  | cons hd rest ih =>
    by_cases hk : hd.1 = k
    · have h1 : ¬ ((k : String) = k2) := fun h => hne h.symm
      have h2 : ¬ (hd.1 = k2) := by rw [hk]; exact h1
      simpa [dictFind?, hk, h1, h2] using ih
    · have hf : (if hd.1 = k then (k, v) else hd) = hd := if_neg hk
      simp only [dictFind?, List.map_cons, List.find?_cons, hf]
      by_cases hk2 : hd.1 = k2
      · simp [hk2]
      · simp only [dictFind?] at ih
        simp only [hk2, decide_False]
        exact ih

/-- A dictionary that does not contain `k` has no entry for it. -/
theorem find?_no_key (d : Dict) (k : String) (hc : ¬ dictContains d k = true) :
    d.find? (fun p => p.1 = k) = none := by
  rw [List.find?_eq_none]
  intro x hx
  simp only [Bool.not_eq_true, decide_eq_false_iff_not]
  intro hxk
  apply hc
  rw [dictContains, List.any_eq_true]
  exact ⟨x, hx, by simp [hxk]⟩

/-- Looking up the key just written by `dictInsert` yields the new value. -/
theorem dictFind?_insert_self (d : Dict) (k : String) (v : DictEntry) :
    dictFind? (dictInsert d k v) k = some v := by
  unfold dictInsert
  by_cases hc : dictContains d k = true
  · rw [if_pos hc]
    exact find?_update_self d k v hc
  · rw [if_neg hc]
    simp [dictFind?, List.find?_append, find?_no_key d k hc]

/-- `dictInsert` leaves every other key's binding unchanged. -/
theorem dictFind?_insert_ne (d : Dict) (k : String) (v : DictEntry) (k2 : String)
    (hne : k2 ≠ k) : dictFind? (dictInsert d k v) k2 = dictFind? d k2 := by
  unfold dictInsert
  by_cases hc : dictContains d k = true
  · rw [if_pos hc]
    exact find?_update_ne d k v k2 hne
  · rw [if_neg hc]
    have h1 : ¬ ((k : String) = k2) := fun h => hne h.symm
    rw [dictFind?, dictFind?, List.find?_append]
    cases hfd : d.find? (fun p => p.1 = k2) <;> simp [hfd, h1]

/-! ## Claims -/

/-- C3 (counterexample): the claim says a `While` takes the *top* element
of the stack its predicate produces.  With stack `[42]` and predicate
`[True]` the predicate evaluation yields the stack `[42, True]`, whose top
element is the boolean `True` — per the claim the loop should run — yet
`WhileParserToken.execute` raises `InvalidPredicateException`, because it
reads `[0][0]`, the *bottom* element `42`. -/
theorem while_predicate_top_counterexample :
    exhaustive_interpret_tokens 5 [ParserToken.boolean true] [Value.int 42] [] =
      .ok ([Value.int 42, Value.bool true], [])
    ∧ List.getLast? [Value.int 42, Value.bool true] = some (Value.bool true)
    ∧ execute 6 (.whileT [.boolean true] []) [Value.int 42] [] = .err .invalidPredicate :=
  ⟨rfl, rfl, rfl⟩

/-- C3 (amended): for every `While` node and state, each iteration
evaluates the predicate against the current stack and dictionary and takes
the *first (bottom, index-0) element* of the stack the predicate evaluation
produces as the outcome — an empty result stack is an `IndexError`; if the
outcome is not a boolean, `execute` raises `InvalidPredicateException`; if
it is `False`, `execute` returns the stack and dictionary unchanged; if it
is `True`, the body is evaluated against the real state and the `While`
recurses on the updated state. -/
theorem while_execute_spec (fuel : Nat) (predicate statements : List ParserToken)
    (s : Stack) (d : Dict) (ps : Stack) (pd : Dict)
    (hpred : exhaustive_interpret_tokens fuel predicate s d = .ok (ps, pd)) :
    (ps.head? = none → execute (fuel+1) (.whileT predicate statements) s d = .err .indexError)
    ∧ (∀ v, ps.head? = some v → v.isBool = false →
        execute (fuel+1) (.whileT predicate statements) s d = .err .invalidPredicate)
    ∧ (ps.head? = some (.bool false) →
        execute (fuel+1) (.whileT predicate statements) s d = .ok (s, d))
    ∧ (ps.head? = some (.bool true) →
        execute (fuel+1) (.whileT predicate statements) s d =
          match exhaustive_interpret_tokens fuel statements s d with
          | .ok (s2, d2) => execute fuel (.whileT predicate statements) s2 d2
          | .err e => .err e
          | .timeout => .timeout) := by
  refine ⟨?_, ?_, ?_, ?_⟩
  · intro hh; simp [execute, hpred, hh]
  · intro v hh hb
    simp only [execute, hpred, hh]
    cases v with
    | int n => rfl
    | bool b => simp [Value.isBool] at hb
    | unassigned => rfl
  · intro hh; simp [execute, hpred, hh]
  · intro hh; simp only [execute, hpred, hh]; simp

/-- Witness for C3's theorem at a concrete input: a `While` whose predicate
pushes `False` onto the empty stack returns the state unchanged. -/
theorem while_execute_spec_witness :
    execute 4 (.whileT [.boolean false] []) [] [] = .ok ([], []) :=
  (while_execute_spec 3 [ParserToken.boolean false] [] [] [] [Value.bool false] [] rfl).2.2.1 rfl

/-- C5: every operator raises `StackSizeException` on an insufficiently
deep stack — fewer than 2 values for an arithmetic or boolean operator,
fewer than 1 for the `__PRINT__` macro or `ASSIGN`, fewer than `count` for
`Return(count)` — and, the state being returned untouched as an error, never
reads beyond the stack's actual elements. -/
theorem stack_underflow_spec (fuel : Nat) (s : Stack) (d : Dict) :
    (∀ op, s.length < 2 → execute (fuel+1) (.arith op) s d = .err .stackSize)
    ∧ (∀ op, s.length < 2 → execute (fuel+1) (.boolOp op) s d = .err .stackSize)
    ∧ (s = [] → execute (fuel+1) (.macroTok "__PRINT__") s d = .err .stackSize)
    ∧ (∀ name, s.length < 1 → execute (fuel+1) (.dictOp "ASSIGN" name) s d = .err .stackSize)
    ∧ (∀ count, s.length < count → execute (fuel+1) (.returnT count) s d = .err .stackSize) := by
  refine ⟨?_, ?_, ?_, ?_, ?_⟩
  · intro op h; simp [execute, h]
  · intro op h; simp [execute, h]
  · intro h; subst h; simp [execute]
  · intro name h; simp [execute, h]
  · intro count h
    have h0 : count ≠ 0 := by omega
    simp [execute, h, h0]

/-- Witness for C5's theorem at concrete underflowing stacks. -/
theorem stack_underflow_spec_witness :
    execute 1 (.arith "+") [] [] = .err .stackSize
    ∧ execute 1 (.boolOp "==") [Value.int 9262] [] = .err .stackSize
    ∧ execute 1 (.macroTok "__PRINT__") [] [] = .err .stackSize
    ∧ execute 1 (.dictOp "ASSIGN" "X") [] [] = .err .stackSize
    ∧ execute 1 (.returnT 3) [Value.int 92, Value.int 92] [] = .err .stackSize :=
  ⟨(stack_underflow_spec 0 [] []).1 "+" (by decide),
   (stack_underflow_spec 0 [Value.int 9262] []).2.1 "==" (by decide),
   (stack_underflow_spec 0 [] []).2.2.1 rfl,
   (stack_underflow_spec 0 [] []).2.2.2.1 "X" (by decide),
   (stack_underflow_spec 0 [Value.int 92, Value.int 92] []).2.2.2.2 3 (by decide)⟩

/-- C6: dictionary bindings made by declaration are write-once — executing
`Variable(name)` or `Function(name, ...)` when `name` is already a key
raises `IdentifierPreviouslyDefinedException` (an error result, so no
binding changes), while the `ASSIGN` dictionary operator replaces the value
bound to an existing name and leaves every other binding unchanged. -/
theorem dictionary_write_once_spec (fuel : Nat) (s : Stack) (d : Dict) (name : String) :
    (dictContains d name = true →
      execute (fuel+1) (.variable name) s d = .err .identifierPreviouslyDefined
      ∧ ∀ params body, execute (fuel+1) (.function name params body) s d =
          .err .identifierPreviouslyDefined)
    ∧ (∀ v : Value, execute (fuel+1) (.dictOp "ASSIGN" name) (s ++ [v]) d =
        .ok (s, dictInsert d name (.val v)))
    ∧ (∀ v : Value, dictFind? (dictInsert d name (.val v)) name = some (.val v))
    ∧ (∀ v : Value, ∀ k, k ≠ name → dictFind? (dictInsert d name (.val v)) k = dictFind? d k) := by
  refine ⟨fun h => ⟨?_, fun params body => ?_⟩, fun v => ?_, fun v => ?_, fun v k hk => ?_⟩
  · simp [execute, h]
  · simp [execute, h]
  · simp [execute, List.getLast?_concat, List.dropLast_concat]
  · exact dictFind?_insert_self d name (.val v)
  · exact dictFind?_insert_ne d name (.val v) k hk

/-- Witness for C6's theorem at a concrete dictionary. -/
theorem dictionary_write_once_spec_witness :
    execute 1 (.variable "X") [] [("X", DictEntry.val (.int 5))] =
      .err .identifierPreviouslyDefined
    ∧ execute 1 (.function "X" [] []) [] [("X", DictEntry.val (.int 5))] =
      .err .identifierPreviouslyDefined
    ∧ execute 1 (.dictOp "ASSIGN" "X") [Value.int 28] [("X", DictEntry.val (.int 5))] =
      .ok ([], dictInsert [("X", DictEntry.val (.int 5))] "X" (.val (.int 28)))
    ∧ dictFind? (dictInsert [("X", DictEntry.val (.int 5))] "X" (.val (.int 28))) "X" =
      some (.val (.int 28)) :=
  ⟨((dictionary_write_once_spec 0 [] [("X", DictEntry.val (.int 5))] "X").1 (by decide)).1,
   ((dictionary_write_once_spec 0 [] [("X", DictEntry.val (.int 5))] "X").1 (by decide)).2 [] [],
   (dictionary_write_once_spec 0 [] [("X", DictEntry.val (.int 5))] "X").2.1 (.int 28),
   (dictionary_write_once_spec 0 [] [("X", DictEntry.val (.int 5))] "X").2.2.1 (.int 28)⟩

/-- C7: a function call triggered by an `Ident` lookup returns the
call-site dictionary to the caller unchanged — neither parameter bindings
nor bindings made while evaluating the body survive the call. -/
theorem call_preserves_dictionary (fuel : Nat) (s : Stack) (d : Dict) (name f : String)
    (ps body : List ParserToken) (s2 : Stack) (d2 : Dict)
    (hf : dictFind? d name = some (.func f ps body))
    (hok : execute fuel (.ident name) s d = .ok (s2, d2)) : d2 = d := by
  match fuel with
  | 0 => simp [execute] at hok
  | fuel + 1 =>
    rw [execute, hf] at hok
    match fuel with
    | 0 => simp [visit] at hok
    | fuel2 + 1 =>
      simp only [visit] at hok
      split at hok
      · simp at hok
      · split at hok
        · simp_all
        · simp at hok
        · simp at hok

/-- Witness for C7's theorem: calling `F` (body `1 RETURN 1`) through an
`Ident` lookup, with `F`'s own registration the only binding, returns
exactly the call-site dictionary. -/
theorem call_preserves_dictionary_witness :
    execute 5 (.ident "F") [] [("F", DictEntry.func "F" [] [.number 1, .returnT 1])] =
      .ok ([Value.int 1], [("F", DictEntry.func "F" [] [.number 1, .returnT 1])])
    ∧ ([("F", DictEntry.func "F" [] [.number 1, .returnT 1])] : Dict) =
      [("F", DictEntry.func "F" [] [.number 1, .returnT 1])] :=
  ⟨rfl, call_preserves_dictionary 5 [] _ "F" "F" [] [.number 1, .returnT 1]
    [Value.int 1] _ rfl rfl⟩

/-- The success behaviour of `rec_setup_parameters` when the captured size
guard cannot fire: popping the value stack right-to-left binds the
parameter names in declaration order to the stack's values from the top
down. -/
theorem rec_setup_ok (n0 N : Nat) (hguard : ¬ n0 < N) :
    ∀ (names : List String) (vals s : Stack) (d : Dict),
      vals.length = names.length →
      rec_setup_parameters n0 N (s ++ vals) d (names.map ParserToken.valueT) =
        .ok (s, (names.zip vals.reverse).foldl
          (fun acc kv => dictInsert acc kv.1 (.val kv.2)) d) := by
  intro names
  induction names with
  | nil =>
    intro vals s d h
    have hv : vals = [] := List.eq_nil_of_length_eq_zero h
    subst hv
    simp [rec_setup_parameters]
  | cons name rest ih =>
    intro vals s d h
    rcases List.eq_nil_or_concat vals with hv | ⟨vs, vlast, hv⟩
    · subst hv; simp at h
    · subst hv
      simp only [List.concat_eq_append] at h ⊢
      rw [show s ++ (vs ++ [vlast]) = (s ++ vs) ++ [vlast] from
        (List.append_assoc s vs [vlast]).symm]
      simp only [List.map_cons, rec_setup_parameters]
      rw [if_neg hguard]
      simp only [paramName, List.getLast?_concat, List.dropLast_concat]
      have hlen : vs.length = rest.length := by
        have := h; simp at this; omega
      rw [ih vs s (dictInsert d name (.val vlast)) hlen]
      simp [List.reverse_append]

/-- C1 (counterexample): the claim says the topmost stack value binds to
the *last* declared parameter.  For `FNC ( VALUE X VALUE Y )` on stack
`[37, 62]` (top `62`) — the repository's own
`test_setup_parameters_positive` fixture — the dictionary comes out as
`{X: 62, Y: 37}`: the topmost value `62` is bound to the *first* declared
parameter `X`, and `Y` gets `37`, not the claimed `62`. -/
theorem setup_parameters_reverse_bind_counterexample :
    setup_parameters [ParserToken.valueT "X", ParserToken.valueT "Y"]
        [Value.int 37, Value.int 62] [] =
      .ok ([], [("X", DictEntry.val (.int 62)), ("Y", DictEntry.val (.int 37))])
    ∧ dictFind? [("X", DictEntry.val (.int 62)), ("Y", DictEntry.val (.int 37))] "Y" =
      some (DictEntry.val (.int 37))
    ∧ (Value.int 37 : Value) ≠ Value.int 62 :=
  ⟨rfl, rfl, by decide⟩

/-- C1 (amended): when an `Ident` lookup calls a dictionary-stored
`Function` whose parameter list is `p1..pn` and the stack has depth `≥ n`,
the top `n` stack values are bound to the formal parameter names *in
declaration order from the top of the stack down* — the topmost stack value
binds to the *first* declared parameter `p1`, the next one down to `p2`,
and so on — in a fresh dictionary copied from the call-site dictionary
(the fold below starts from the call-site dictionary `d`; `vals` lists the
consumed values bottom-to-top, so `vals.reverse` pairs the topmost value
with `p1`); if the stack has depth `< n` (with `n ≥ 1`), a
`StackSizeException` is raised. -/
theorem setup_parameters_spec :
    (∀ (name : String) (rest : List String) (s : Stack) (d : Dict),
        s.length < (name :: rest).length →
        setup_parameters ((name :: rest).map ParserToken.valueT) s d = .error .stackSize)
    ∧ (∀ (names : List String) (vals s : Stack) (d : Dict),
        vals.length = names.length →
        setup_parameters (names.map ParserToken.valueT) (s ++ vals) d =
          .ok (s, (names.zip vals.reverse).foldl
            (fun acc kv => dictInsert acc kv.1 (.val kv.2)) d)) := by
  constructor
  · intro name rest s d h
    simp only [setup_parameters, List.map_cons, rec_setup_parameters]
    rw [if_pos]
    simp only [List.length_cons, List.length_map]
    simpa using h
  · intro names vals s d h
    unfold setup_parameters
    apply rec_setup_ok
    · simp [h]
    · exact h

/-- Witness for C1's theorem: one underflowing call and one successful
call at concrete inputs. -/
theorem setup_parameters_spec_witness :
    setup_parameters [ParserToken.valueT "A"] [] [] = .error .stackSize
    ∧ setup_parameters [ParserToken.valueT "A"] [Value.int 7] [] =
      .ok ([], dictInsert [] "A" (.val (.int 7))) :=
  ⟨setup_parameters_spec.1 "A" [] [] [] (by decide),
   by
     have := setup_parameters_spec.2 ["A"] [Value.int 7] [] [] (by decide)
     simpa using this⟩

/-- Only the exact word `"#"` is classified as a `Comment`: the lexer
compares the whole word against the literal-type values, so a word merely
*beginning* with `#` falls through to the identifier fallback. -/
theorem tokenIsComment_lex_word (w : Word) :
    tokenIsComment (lex_word w) = true ↔ w.content = "#" := by
  unfold lex_word
  split_ifs with h1 h2 h3 h4 h5 h6 <;> simp only [tokenIsComment]
  · simp only [delimValues, List.mem_cons, List.not_mem_nil, or_false] at h1
    rcases h1 with h | h <;> simp [h]
  · simp only [keywordValues, List.mem_cons, List.not_mem_nil, or_false] at h2
    rcases h2 with h|h|h|h|h|h|h|h|h|h|h|h <;> simp [h]
  · simp [decide_eq_true_iff]
  · simp only [macroValues, List.mem_cons, List.not_mem_nil, or_false] at h4
    simp [h4]
  · simp only [opValues, List.mem_cons, List.not_mem_nil, or_false] at h5
    rcases h5 with h|h|h|h|h|h|h|h <;> simp [h]
  · constructor
    · intro hx; exact absurd hx (by decide)
    · intro hcc; rw [hcc] at h6; exact absurd h6 (by decide)
  · constructor
    · intro hx; exact absurd hx (by simp)
    · intro hcc; exact absurd (by rw [hcc]; decide) h3

/-- No token of a lexed line is ever a `Comment`. -/
theorem lex_line_no_comment : ∀ ws : List Word, ∀ t ∈ lex_line ws, tokenIsComment t = false := by
  intro ws
  induction ws with
  | nil => intro t ht; simp [lex_line] at ht
  | cons w rest ih =>
    intro t ht
    simp only [lex_line] at ht
    by_cases hc : tokenIsComment (lex_word w) = true
    · rw [if_pos hc] at ht; simp at ht
    · rw [if_neg hc] at ht
      rcases List.mem_cons.mp ht with rfl | hmem
      · simpa using hc
      · exact ih t hmem

/-- A comment word ends its line's production: every word after it on the
same line is dropped. -/
theorem lex_line_drops_rest (ws1 ws2 : List Word) (w : Word) (hw : w.content = "#")
    (h1 : ∀ w1 ∈ ws1, w1.content ≠ "#") :
    lex_line (ws1 ++ w :: ws2) = ws1.map lex_word := by
  induction ws1 with
  | nil =>
    have hcw : tokenIsComment (lex_word w) = true := (tokenIsComment_lex_word w).mpr hw
    simp [lex_line, hcw]
  | cons a rest ih =>
    have ha : ¬ tokenIsComment (lex_word a) = true := by
      rw [tokenIsComment_lex_word]
      exact h1 a (List.mem_cons_self a rest)
    simp only [List.cons_append, lex_line]
    rw [if_neg ha]
    simp only [List.map_cons]
    congr 1
    simpa using ih (fun w1 hw1 => h1 w1 (List.mem_cons_of_mem a hw1))

/-- C2 (counterexample): lexing the line `# 5` yields *no* tokens — the
word after the comment on the same line is dropped, so comments are not
one-word wide as claimed — and the word `#x`, which begins with `#`, is
classified as an identifier, not as a `Comment`. -/
theorem lex_comment_counterexample :
    lex_line [⟨"#", 0⟩, ⟨"5", 0⟩] = []
    ∧ lex_word ⟨"#x", 0⟩ = .ident "#x" 0 :=
  ⟨rfl, by decide⟩

/-- C2 (amended): exactly the word `"#"` is classified as `Comment`; a
`Comment` token is never yielded, and it suppresses the *remainder of its
line* (the words before it lex normally, everything after it on the line
is dropped; lexing resumes on the next line); no `Comment`-classified
token ever appears in the lexer's output. -/
theorem lex_comment_spec :
    (∀ w : Word, tokenIsComment (lex_word w) = true ↔ w.content = "#")
    ∧ (∀ ws : List Word, ∀ t ∈ lex_line ws, tokenIsComment t = false)
    ∧ (∀ (ws1 ws2 : List Word) (w : Word), w.content = "#" →
        (∀ w1 ∈ ws1, w1.content ≠ "#") →
        lex_line (ws1 ++ w :: ws2) = ws1.map lex_word) :=
  ⟨tokenIsComment_lex_word, lex_line_no_comment,
   fun ws1 ws2 w hw h1 => lex_line_drops_rest ws1 ws2 w hw h1⟩

/-- Witness for C2's theorem: the line `2 # 99` lexes to just the number
token for `2`. -/
theorem lex_comment_spec_witness :
    (tokenIsComment (lex_word ⟨"#", 3⟩) = true ↔ ("#" : String) = "#")
    ∧ lex_line [⟨"2", 0⟩, ⟨"#", 1⟩, ⟨"99", 2⟩] = [⟨"2", 0⟩].map lex_word :=
  ⟨lex_comment_spec.1 ⟨"#", 3⟩,
   lex_comment_spec.2.2 [⟨"2", 0⟩] [⟨"99", 2⟩] ⟨"#", 1⟩ rfl (by decide)⟩

/-- C8: lexing a numeric word never fails and classifies it
`Literal(Number)`; converting that token to an AST node raises `ValueError`
exactly when its integer value exceeds `0xFFFFFFFF`, and otherwise yields a
`NumberParserToken` carrying that value. -/
theorem number_literal_bound_spec (content : String) (k fuel : Nat) (rest : List LexerToken)
    (h : pyIsDigit content = true) :
    lex_word ⟨content, k⟩ = .literal "NUMBER" content k
    ∧ (∃ n, pyInt? content = some n)
    ∧ (∀ n, pyInt? content = some n →
        (n ≤ 0xFFFFFFFF →
          parse_token (fuel+1) (.literal "NUMBER" content k) rest = .ok (.number n, rest))
        ∧ (n > 0xFFFFFFFF →
          parse_token (fuel+1) (.literal "NUMBER" content k) rest = .err .valueError)) := by
  refine ⟨?_, ?_, ?_⟩
  · unfold lex_word
    rw [if_neg, if_neg, if_neg, if_neg, if_neg, if_pos (by simpa using h)]
    · intro hc
      simp only [opValues, List.mem_cons, List.not_mem_nil, or_false] at hc
      rcases hc with rfl|rfl|rfl|rfl|rfl|rfl|rfl|rfl <;> exact absurd h (by decide)
    · intro hc
      simp only [macroValues, List.mem_cons, List.not_mem_nil, or_false] at hc
      rw [hc] at h; exact absurd h (by decide)
    · intro hc
      simp only [literalValues, List.mem_cons, List.not_mem_nil, or_false] at hc
      rcases hc with rfl|rfl|rfl|rfl <;> exact absurd h (by decide)
    · intro hc
      simp only [keywordValues, List.mem_cons, List.not_mem_nil, or_false] at hc
      rcases hc with rfl|rfl|rfl|rfl|rfl|rfl|rfl|rfl|rfl|rfl|rfl|rfl <;> exact absurd h (by decide)
    · intro hc
      simp only [delimValues, List.mem_cons, List.not_mem_nil, or_false] at hc
      rcases hc with rfl|rfl <;> exact absurd h (by decide)
  · exact ⟨content.data.foldl (fun acc c => 10 * acc + (c.toNat - 48)) 0, by simp [pyInt?, h]⟩
  · intro n hn
    constructor
    · intro hle
      have hb : ¬ (n > 0xFFFFFFFF) := by omega
      simp [parse_token, hn, hb]
    · intro hgt
      simp [parse_token, hn, hgt]

/-- Witness for C8's theorem: `7` lexes and converts to `Number 7`, and the
first value past the 32-bit bound is rejected. -/
theorem number_literal_bound_spec_witness :
    lex_word ⟨"7", 0⟩ = .literal "NUMBER" "7" 0
    ∧ parse_token 1 (.literal "NUMBER" "7" 0) [] = .ok (.number 7, [])
    ∧ parse_token 1 (.literal "NUMBER" "4294967296" 0) [] = .err .valueError :=
  ⟨(number_literal_bound_spec "7" 0 0 [] (by decide)).1,
   by simpa using
     ((number_literal_bound_spec "7" 0 0 [] (by decide)).2.2 7 (by decide)).1 (by norm_num),
   ((number_literal_bound_spec "4294967296" 0 0 [] (by decide)).2.2 4294967296
     (by decide)).2 (by norm_num)⟩

/-- Parsing any run of plain number literals never reaches an `IF`
terminator: the stream runs dry and `eat_until`'s `next(tokens)` raises
`StopIteration`. -/
theorem eat_until_replicate (m : Nat) :
    eat_until (m+1) (List.replicate m (.literal "NUMBER" "1" 0)) [.kw "ELSE", .kw "THEN"] =
      .err .stopIteration := by
  induction m with
  | zero => rfl
  | succ m ih =>
    have h1 : pyInt? "1" = some 1 := by decide
    simp only [List.replicate_succ, eat_until]
    have hany : ([LimitTy.kw "ELSE", LimitTy.kw "THEN"].any
        (tokenMatches (LexerToken.literal "NUMBER" "1" 0))) = false := rfl
    have hp : parse_token (m+1) (.literal "NUMBER" "1" 0)
        (List.replicate m (.literal "NUMBER" "1" 0)) =
        .ok (.number 1, List.replicate m (.literal "NUMBER" "1" 0)) := by
      simp [parse_token, h1]
    simp [hany, hp, ih]

/-- C9: an `IF` whose terminator (`THEN`, or `ELSE` immediately followed by
`THEN`) directly follows the `IF` token parses successfully to an `If` node
with an empty branch list; but when the token stream is exhausted before a
terminator is found (here: a stream of plain number literals of any
length), parsing the `IF` raises a missing-token error. -/
theorem if_parse_spec :
    (∀ (fuel k k2 : Nat) (rest : List LexerToken),
        parse_token (fuel+2) (.keyword "IF" k) (.keyword "THEN" k2 :: rest) =
          .ok (.ifT [] none, rest))
    ∧ (∀ (fuel k k2 k3 : Nat) (rest : List LexerToken),
        parse_token (fuel+3) (.keyword "IF" k)
            (.keyword "ELSE" k2 :: .keyword "THEN" k3 :: rest) =
          .ok (.ifT [] (some []), rest))
    ∧ (∀ (m k : Nat),
        parse_token (m+2) (.keyword "IF" k)
            (List.replicate m (.literal "NUMBER" "1" 0)) = .err .missingToken) := by
  refine ⟨?_, ?_, ?_⟩
  · intro fuel k k2 rest
    have he : eat_until (fuel+1) (.keyword "THEN" k2 :: rest) [.kw "ELSE", .kw "THEN"] =
        .ok ([], .keyword "THEN" k2, rest) := by
      have hany : ([LimitTy.kw "ELSE", LimitTy.kw "THEN"].any
          (tokenMatches (LexerToken.keyword "THEN" k2))) = true := rfl
      simp [eat_until, hany]
    have hm : tokenMatches (.keyword "THEN" k2) (.kw "ELSE") = false := rfl
    simp [parse_token, he, hm]
  · intro fuel k k2 k3 rest
    have he : eat_until (fuel+2) (.keyword "ELSE" k2 :: .keyword "THEN" k3 :: rest)
        [.kw "ELSE", .kw "THEN"] = .ok ([], .keyword "ELSE" k2, .keyword "THEN" k3 :: rest) := by
      have hany : ([LimitTy.kw "ELSE", LimitTy.kw "THEN"].any
          (tokenMatches (LexerToken.keyword "ELSE" k2))) = true := rfl
      simp [eat_until, hany]
    have hm : tokenMatches (.keyword "ELSE" k2) (.kw "ELSE") = true := rfl
    have hd : eat_until_discarding (fuel+2) (.keyword "THEN" k3 :: rest) [.kw "THEN"] =
        .ok ([], rest) := by
      have hany : ([LimitTy.kw "THEN"].any (tokenMatches (LexerToken.keyword "THEN" k3))) =
          true := rfl
      simp [eat_until_discarding, hany]
    simp [parse_token, he, hm, hd]
  · intro m k
    simp [parse_token, eat_until_replicate m]

/-- C4 (counterexample): the claim's example asserts that compiling an
unreachable top-level `Return` node raises the fatal "cannot compile"
error; in fact `ReturnParserToken` *has* a dispatch case,
`_compile_return_token`, which emits no code at all, so a top-level
`Return` compiles successfully to the empty string — silently skipped. -/
theorem compile_return_counterexample :
    compile_token (.returnT 1) [] 0 = .ok ("", 0) := by
  simp [compile_token]

/-- C4 (amended): every AST node without a dispatch case in
`M0Compiler._compile_token` — `Variable`, `Value`, `DictionaryOp` and
`Lambda` — raises the fatal `RuntimeError("Cannot compile token ...")`
naming the offending node (the error value carries it), and is never
silently skipped; a top-level `Return`, however, *does* have a lowering
rule, one that emits no code, so it is silently skipped rather than
raising. -/
theorem compile_unlowerable_spec :
    (∀ (name : String) (regs : UsedRegs) (sup : Nat),
        compile_token (.variable name) regs sup = .error (.cannotCompile (.variable name)))
    ∧ (∀ (name : String) (regs : UsedRegs) (sup : Nat),
        compile_token (.valueT name) regs sup = .error (.cannotCompile (.valueT name)))
    ∧ (∀ (op tgt : String) (regs : UsedRegs) (sup : Nat),
        compile_token (.dictOp op tgt) regs sup = .error (.cannotCompile (.dictOp op tgt)))
    ∧ (∀ (regs : UsedRegs) (sup : Nat),
        compile_token .lambda regs sup = .error (.cannotCompile .lambda))
    ∧ (∀ (count : Nat) (regs : UsedRegs) (sup : Nat),
        compile_token (.returnT count) regs sup = .ok ("", sup)) := by
  refine ⟨?_, ?_, ?_, ?_, ?_⟩ <;> intros <;> simp [compile_token]

/-- C10: compiling an `If` node whose else branch is absent always fails:
no success value is possible, and whenever the if-branch itself compiles,
the failure is the uncontrolled `TypeError` from iterating `None`, not the
"cannot compile" error; yet the interpreter executes such a node without
complaint. -/
theorem compile_elseless_if_spec (ifBody : List ParserToken) (regs : UsedRegs) (sup : Nat) :
    (∀ out sup2, compile_token (.ifT ifBody none) regs sup ≠ .ok (out, sup2))
    ∧ (∀ out sup2, compile_tokens ifBody regs (sup+1) = .ok (out, sup2) →
        compile_token (.ifT ifBody none) regs sup = .error .typeError)
    ∧ (∀ (fuel : Nat) (s : Stack) (d : Dict),
        execute (fuel+1) (.ifT ifBody none) (s ++ [.bool false]) d = .ok (s, d)) := by
  refine ⟨?_, ?_, ?_⟩
  · intro out sup2
    cases h : compile_tokens ifBody regs (sup+1) with
    | ok pr => obtain ⟨o, s2⟩ := pr; simp [compile_token, h, Except.bind]
    | error e => simp [compile_token, h, Except.bind]
  · intro out sup2 h
    simp [compile_token, h, Except.bind]
  · intro fuel s d
    simp [execute, List.getLast?_concat, List.dropLast_concat]

/-- Witness for C10's theorem: the empty-bodied else-less `If` compiles to
a `TypeError` while the interpreter runs it. -/
theorem compile_elseless_if_spec_witness :
    compile_tokens [] [] 1 = .ok ("", 1)
    ∧ compile_token (.ifT [] none) [] 0 = .error .typeError
    ∧ execute 1 (.ifT [] none) [Value.bool false] [] = .ok ([], []) := by
  refine ⟨by simp [compile_tokens], ?_, ?_⟩
  · exact (compile_elseless_if_spec [] [] 0).2.1 "" 1 (by simp [compile_tokens])
  · exact (compile_elseless_if_spec [] [] 0).2.2 0 [] []
